import Mathlib

/-!
Shallow embedding of `mlflow/data/spark_dataset.py` (the SparkDataset wrapper,
its schema / serialization behaviour, and the `load_delta` / `from_spark`
factory functions), together with theorems settling the specification claims
about that module.

Modelling conventions:
* A Spark dataframe is a list of rows over a list of column names; cell values
  are opaque strings.  `limit` takes a prefix of the rows and `toPandas`
  materializes the same rows locally (both engine operations preserve the
  column list and row order, which is all the wrapper relies on).
* Python exceptions become `Except PyError`.  `MlflowException(msg, code)` is
  `PyError.mlflowError msg code`; an attribute lookup that fails at runtime is
  `PyError.attributeError`.
* External collaborators (`_is_delta_table`, `_is_delta_table_path`,
  `_try_get_delta_table_latest_version_from_path`,
  `_try_get_delta_table_latest_version_from_table_name`, `source.load()`) live
  in a `DeltaEnv` record of oracle functions; every call into the environment
  is recorded in an `EnvCall` trace so that eagerness claims (errors raised
  before any I/O) are statable.
-/

namespace MlflowSpark

/-- Error codes from `mlflow.protos.databricks_pb2` used by this module. -/
inductive ErrorCode where
  | INVALID_PARAMETER_VALUE
  | INTERNAL_ERROR
  deriving DecidableEq, Repr

/-- A Python exception as observed by a caller of this module: either an
`MlflowException` carrying a message and an error code, or an
`AttributeError` raised by a failed attribute lookup. -/
inductive PyError where
  | mlflowError (message : String) (error_code : ErrorCode)
  | attributeError (message : String)
  deriving DecidableEq, Repr

/-- A Spark DataFrame: a list of column names and a list of rows, each row a
list of cell values aligned with the columns.  Cell contents are opaque. -/
structure SparkDF where
  columns : List String
  rows : List (List String)
  deriving DecidableEq, Repr

/-- Spark `df.limit(n)`: a dataframe holding at most the first `n` rows, a
deterministic prefix of the engine row ordering. -/
def SparkDF.limit (df : SparkDF) (n : Nat) : SparkDF :=
  ⟨df.columns, df.rows.take n⟩

/-- A materialized pandas DataFrame (same shape as the Spark dataframe: the
engine conversion preserves columns and row order). -/
structure PandasDF where
  columns : List String
  rows : List (List String)
  deriving DecidableEq, Repr

/-- Spark `df.toPandas()`: materializes the dataframe locally. -/
def SparkDF.toPandas (df : SparkDF) : PandasDF :=
  ⟨df.columns, df.rows⟩

/-- Number of rows of a materialized dataframe. -/
def PandasDF.nrows (df : PandasDF) : Nat :=
  df.rows.length

/-- pandas `df.drop(columns=t)`: removes every column labelled `t`, keeping
each row's remaining cells. -/
def PandasDF.dropColumn (df : PandasDF) (t : String) : PandasDF :=
  ⟨df.columns.filter (fun c => c ≠ t),
   df.rows.map (fun r => ((df.columns.zip r).filter (fun p => p.1 ≠ t)).map Prod.snd)⟩

/-- pandas `df[t]`: the column labelled `t` as a series, one entry per row
(the cell at the first index whose column name is `t`). -/
def PandasDF.getColumn (df : PandasDF) (t : String) : List (Option String) :=
  df.rows.map (fun r => r.get? (df.columns.indexOf t))

/-- Provenance descriptor: `SparkDatasetSource` (exactly one of path, table
name, sql is populated by the callers in this module) or `DeltaDatasetSource`
(path or table name, plus an optional version). -/
inductive DatasetSource where
  | spark (path table_name sql : Option String)
  | delta (path delta_table_name delta_table_version : Option String)
  deriving DecidableEq, Repr

/-- The `SparkDataset` wrapper after successful construction.  The base
`Dataset` class (not part of this module) stores `name` and `digest` as
supplied, deferring derived computation; we keep them as the supplied
options. -/
structure SparkDataset where
  df : SparkDF
  source : DatasetSource
  targets : Option String
  name : Option String
  digest : Option String
  deriving DecidableEq, Repr

/-- Translation of `SparkDataset.__init__`: raises `MlflowException` with
`INVALID_PARAMETER_VALUE` when `targets is not None and targets not in
df.columns`; otherwise stores the fields. -/
def SparkDataset.init (df : SparkDF) (source : DatasetSource)
    (targets : Option String) (name : Option String) (digest : Option String) :
    Except PyError SparkDataset :=
  match targets with
  | some t =>
      if t ∉ df.columns then
        .error (.mlflowError
          ("The specified Spark dataset does not contain the specified targets column "
            ++ t ++ ".") .INVALID_PARAMETER_VALUE)
      else
        .ok ⟨df, source, some t, name, digest⟩
  | none => .ok ⟨df, source, none, name, digest⟩

/-- The inputs/outputs pair produced by pyfunc conversion: a features frame
and an optional series of targets. -/
structure PyFuncInputsOutputs where
  inputs : PandasDF
  outputs : Option (List (Option String))
  deriving DecidableEq, Repr

/-- Translation of `SparkDataset.to_pyfunc`:
`df = self._df.limit(10000).toPandas()`; when `targets` is set, raise an
internal error if the target column is absent from the materialized frame,
else split into features (all columns but the target) and the target series;
when `targets` is unset, return the whole frame with no outputs. -/
def SparkDataset.to_pyfunc (d : SparkDataset) : Except PyError PyFuncInputsOutputs :=
  let df := (d.df.limit 10000).toPandas
  match d.targets with
  | some t =>
      if t ∉ df.columns then
        .error (.mlflowError
          ("Failed to convert Spark dataset to pyfunc inputs and outputs because"
            ++ " the pandas representation of the Spark dataset does not contain the"
            ++ " specified targets column " ++ t ++ ".") .INTERNAL_ERROR)
      else
        .ok ⟨df.dropColumn t, some (df.getColumn t)⟩
  | none => .ok ⟨df, none⟩

/-- A column specification of an inferred MLflow schema. -/
structure ColSpec where
  type : String
  name : String
  deriving DecidableEq, Repr

/-- An inferred MLflow `Schema`: a list of column specifications.  Inference
itself (`_infer_schema`) is an external utility, passed in as an oracle. -/
structure Schema where
  cols : List ColSpec
  deriving DecidableEq, Repr

/-- Translation of the body of the `schema` cached property (one evaluation of
the underlying function, before any memoization):
`try: return _infer_schema(self._df) except Exception: ...`.
The except handler executes `_logger._warning(...)`, but `logging.Logger` has
no attribute `_warning`, so the attribute lookup itself raises
`AttributeError` and the handler's `return None` is never reached. -/
def schemaCompute (infer : SparkDF → Except PyError Schema) (df : SparkDF) :
    Except PyError (Option Schema) :=
  match infer df with
  | .ok s => .ok (some s)
  | .error _ =>
      .error (.attributeError "Logger object has no attribute _warning")

/-- One access to the `schema` property under `functools.cached_property`
semantics: `st` is the memo cell (`none` = not yet computed, `some v` = `v`
cached, where `v` itself is the schema-or-null result).  Returns the value
seen by the caller, the new memo cell, and how many times the underlying
computation (hence the inference utility) was invoked.  `cached_property`
stores a successful return value and does not cache a raised exception. -/
def schemaAccess (infer : SparkDF → Except PyError Schema) (df : SparkDF)
    (st : Option (Option Schema)) :
    Except PyError (Option Schema) × Option (Option Schema) × Nat :=
  match st with
  | some v => (.ok v, some v, 0)
  | none =>
      match schemaCompute infer df with
      | .ok v => (.ok v, some v, 1)
      | .error e => (.error e, none, 1)

/-- JSON encoding (`json.dumps`) of the schema field
`{"mlflow_colspec": schema.to_dict()}`, where `Schema.to_dict` is the list of
per-column dictionaries. -/
def jsonSchemaField (s : Schema) : String :=
  "\x7b\"mlflow_colspec\": ["
    ++ String.intercalate ", "
        (s.cols.map (fun c =>
          "\x7b\"type\": \"" ++ c.type ++ "\", \"name\": \"" ++ c.name ++ "\"\x7d"))
    ++ "]\x7d"

/-- JSON encoding (`json.dumps`) of the profile `{"approx_count": n}`
returned by the `profile` property (the count itself comes from the engine's
`rdd.countApprox`). -/
def jsonProfileField (n : Nat) : String :=
  "\x7b\"approx_count\": " ++ toString n ++ "\x7d"

/-- Python `dict.update`: entries of `upd` replace same-keyed entries of
`base` and are appended otherwise (the two key sets are disjoint at the only
call site, where `base` holds name/digest/source/source type). -/
def dictUpdate (base upd : List (String × String)) : List (String × String) :=
  base.filter (fun p => upd.all (fun q => q.1 ≠ p.1)) ++ upd

/-- Translation of `SparkDataset._to_dict`: updates the base dictionary with
the JSON-encoded schema and profile.  `self.schema` is the (cached) schema
value and `approx_count` the engine's approximate row count.  The code calls
`self.schema.to_dict()` unconditionally: when the schema value is `None`, the
attribute lookup `None.to_dict` raises `AttributeError`. -/
def SparkDataset.to_dict (base_dict : List (String × String))
    (schemaVal : Option Schema) (approx_count : Nat) :
    Except PyError (List (String × String)) :=
  match schemaVal with
  | none => .error (.attributeError "NoneType object has no attribute to_dict")
  | some s =>
      .ok (dictUpdate base_dict
        [("schema", jsonSchemaField s), ("profile", jsonProfileField approx_count)])

/-- A call into the external Spark/Delta environment (engine or filesystem
I/O), recorded in order of execution. -/
inductive EnvCall where
  | isDeltaTable (table_name : String)
  | isDeltaTablePath (path : String)
  | latestVersionFromPath (path : String)
  | latestVersionFromTableName (table_name : String)
  | loadSource (source : DatasetSource)
  deriving DecidableEq, Repr

/-- Oracles for the external collaborators of `load_delta` and `from_spark`:
the Delta-format detectors, the latest-version lookups, and
`DatasetSource.load()`. -/
structure DeltaEnv where
  is_delta_table : String → Bool
  is_delta_table_path : String → Bool
  latest_version_from_path : String → Option String
  latest_version_from_table_name : String → Option String
  load : DatasetSource → SparkDF

/-- Python truthiness of an optional string: `None` and the empty string are
falsy.  Used by `version or _try_get_delta_table_latest_version_...`. -/
def pyTruthy : Option String → Bool
  | none => false
  | some s => s ≠ ""

/-- Python `(a, b).count(None)`. -/
def countNone2 (a b : Option String) : Nat :=
  (if a = none then 1 else 0) + (if b = none then 1 else 0)

/-- Python `(a, b, c).count(None)`. -/
def countNone3 (a b c : Option String) : Nat :=
  (if a = none then 1 else 0) + (if b = none then 1 else 0) + (if c = none then 1 else 0)

/-- Expression `f"v{version}" if version is not None else ""` used by
`load_delta` when deriving a default dataset name. -/
def versionSuffix : Option String → String
  | some v => "v" ++ v
  | none => ""

/-- Translation of the module-level `load_delta` factory.  Returns the
result together with the trace of environment calls made, in order.  The
branch reached when both `path` and `table_name` are `None` after the count
guard is unreachable (the guard already returned); it is given the error of
the guard arbitrarily. -/
def load_delta (env : DeltaEnv) (path table_name version targets name digest : Option String) :
    Except PyError SparkDataset × List EnvCall :=
  if countNone2 path table_name ≠ 1 then
    (.error (.mlflowError "Must specify exactly one of `table_name` or `path`."
      .INVALID_PARAMETER_VALUE), [])
  else
    let resolved : Option String × List EnvCall :=
      if version = none then
        match path, table_name with
        | some p, _ => (env.latest_version_from_path p, [.latestVersionFromPath p])
        | none, some t => (env.latest_version_from_table_name t, [.latestVersionFromTableName t])
        | none, none => (none, [])
      else (version, [])
    let version := resolved.1
    let name :=
      if name = none ∧ table_name ≠ none then
        some (table_name.getD "" ++ versionSuffix version)
      else name
    let source := DatasetSource.delta path table_name version
    let df := env.load source
    (SparkDataset.init df source targets name digest,
      resolved.2 ++ [.loadSource source])

/-- Translation of the module-level `from_spark` factory.  Returns the result
together with the trace of environment calls made, in order.  The branch in
which all three of `path`, `table_name`, `sql` are `None` after the count
guard is unreachable (the guard already returned); it is given the error of
the guard arbitrarily. -/
def from_spark (env : DeltaEnv) (df : SparkDF)
    (path table_name version sql targets name digest : Option String) :
    Except PyError SparkDataset × List EnvCall :=
  if countNone3 path table_name sql ≠ 2 then
    (.error (.mlflowError "Must specify exactly one of `path`, `table_name`, or `sql`."
      .INVALID_PARAMETER_VALUE), [])
  else if countNone2 sql version = 0 then
    (.error (.mlflowError
      ("`version` may not be specified when `sql` is specified. `version` may only be"
        ++ " specified when `table_name` or `path` is specified.")
      .INVALID_PARAMETER_VALUE), [])
  else
    match sql, path, table_name with
    | some q, _, _ =>
        (SparkDataset.init df (.spark none none (some q)) targets name digest, [])
    | none, some p, _ =>
        if env.is_delta_table_path p then
          let resolved : Option String × List EnvCall :=
            if pyTruthy version then (version, [])
            else (env.latest_version_from_path p, [.latestVersionFromPath p])
          (SparkDataset.init df (.delta (some p) none resolved.1) targets name digest,
            .isDeltaTablePath p :: resolved.2)
        else if version = none then
          (SparkDataset.init df (.spark (some p) none none) targets name digest,
            [.isDeltaTablePath p])
        else
          (.error (.mlflowError
            ("Version " ++ version.getD "" ++ " was specified, but the path " ++ p
              ++ " does not refer to a Delta table.") .INVALID_PARAMETER_VALUE),
            [.isDeltaTablePath p])
    | none, none, some t =>
        if env.is_delta_table t then
          let resolved : Option String × List EnvCall :=
            if pyTruthy version then (version, [])
            else (env.latest_version_from_table_name t, [.latestVersionFromTableName t])
          (SparkDataset.init df (.delta none (some t) resolved.1) targets name digest,
            .isDeltaTable t :: resolved.2)
        else if version = none then
          (SparkDataset.init df (.spark none (some t) none) targets name digest,
            [.isDeltaTable t])
        else
          (.error (.mlflowError
            ("Version " ++ version.getD "" ++ " was specified, but could not find a"
              ++ " Delta table with name " ++ t ++ ".") .INVALID_PARAMETER_VALUE),
            [.isDeltaTable t])
    | none, none, none =>
        (.error (.mlflowError "Must specify exactly one of `path`, `table_name`, or `sql`."
          .INVALID_PARAMETER_VALUE), [])

/-- The materialized table used by `to_pyfunc`:
`self._df.limit(10000).toPandas()`. -/
def SparkDataset.materialized (d : SparkDataset) : PandasDF :=
  (d.df.limit 10000).toPandas

/-! Concrete fixtures used by witnesses and counterexamples. -/

/-- A two-column, two-row dataframe. -/
def dfXY : SparkDF := ⟨["x", "y"], [["1", "2"], ["3", "4"]]⟩

/-- A generic path source. -/
def srcP : DatasetSource := .spark (some "p") none none

/-- A dataset over `dfXY` with target column `y`. -/
def dsXY : SparkDataset := ⟨dfXY, srcP, some "y", none, none⟩

/-- A 15,000-row, one-column dataframe wrapped with no targets. -/
def bigDataset : SparkDataset :=
  ⟨⟨["x"], List.replicate 15000 ["0"]⟩, srcP, none, none, none⟩

/-- The pyfunc conversion result expected for `bigDataset`. -/
def bigResult : PyFuncInputsOutputs :=
  ⟨⟨["x"], List.replicate 10000 ["0"]⟩, none⟩

/-- An environment in which nothing is a Delta table and loading any source
yields `dfXY`. -/
def envNoDelta : DeltaEnv :=
  ⟨fun _ => false, fun _ => false, fun _ => none, fun _ => none, fun _ => dfXY⟩

/-- An environment in which every path and table is a Delta table whose
latest version is `7`, and loading any source yields `dfXY`. -/
def envDelta : DeltaEnv :=
  ⟨fun _ => true, fun _ => true, fun _ => some "7", fun _ => some "7", fun _ => dfXY⟩

/-- A schema-inference oracle that always raises. -/
def failingInfer : SparkDF → Except PyError Schema :=
  fun _ => .error (.attributeError "unsupported Spark column type")

/-- A concrete two-column schema. -/
def schemaC : Schema := ⟨[⟨"string", "x"⟩, ⟨"string", "y"⟩]⟩

/-- A schema-inference oracle that always succeeds with `schemaC`. -/
def okInfer : SparkDF → Except PyError Schema := fun _ => .ok schemaC

/-- A base dictionary of the kind `Dataset.to_dict` passes to `_to_dict`. -/
def base4 : List (String × String) :=
  [("name", "n"), ("digest", "d"), ("source", "s"), ("source_type", "spark")]

/-- C1: for every dataframe and non-null targets string, construction raises
`InvalidParameter` iff the targets string is not among the dataframe's
columns; construction with targets a column of the dataframe, or with targets
null, succeeds and stores the fields. -/
theorem C1_construct_targets_validation
    (df : SparkDF) (source : DatasetSource) (t : String) (name digest : Option String) :
    ((∃ msg, SparkDataset.init df source (some t) name digest =
        .error (.mlflowError msg .INVALID_PARAMETER_VALUE)) ↔ t ∉ df.columns)
    ∧ (t ∈ df.columns →
        SparkDataset.init df source (some t) name digest =
          .ok ⟨df, source, some t, name, digest⟩)
    ∧ SparkDataset.init df source none name digest =
        .ok ⟨df, source, none, name, digest⟩ := by
  by_cases h : t ∈ df.columns <;>
    simp [SparkDataset.init, h]

/-- Witness for C1 at a concrete dataframe and target column. -/
theorem C1_construct_targets_validation_witness :
    "y" ∈ dfXY.columns ∧
      SparkDataset.init dfXY srcP (some "y") none none =
        .ok ⟨dfXY, srcP, some "y", none, none⟩ :=
  ⟨by decide, (C1_construct_targets_validation dfXY srcP "y" none none).2.1 (by decide)⟩

/-- Helper: `to_pyfunc` with no targets returns the materialized table. -/
lemma to_pyfunc_targets_none (d : SparkDataset) (ht : d.targets = none) :
    d.to_pyfunc = .ok ⟨d.materialized, none⟩ := by
  simp [SparkDataset.to_pyfunc, SparkDataset.materialized, ht]

/-- Helper: `to_pyfunc` with targets present splits the materialized table. -/
lemma to_pyfunc_targets_present (d : SparkDataset) (t : String)
    (ht : d.targets = some t) (hmem : t ∈ d.materialized.columns) :
    d.to_pyfunc = .ok ⟨d.materialized.dropColumn t, some (d.materialized.getColumn t)⟩ := by
  have hmem' : t ∈ ((d.df.limit 10000).toPandas).columns := hmem
  simp [SparkDataset.to_pyfunc, SparkDataset.materialized, ht, hmem']

/-- Helper: `to_pyfunc` with targets absent from the materialized table
raises an internal error. -/
lemma to_pyfunc_targets_absent (d : SparkDataset) (t : String)
    (ht : d.targets = some t) (hmem : t ∉ d.materialized.columns) :
    d.to_pyfunc = .error (.mlflowError
      ("Failed to convert Spark dataset to pyfunc inputs and outputs because"
        ++ " the pandas representation of the Spark dataset does not contain the"
        ++ " specified targets column " ++ t ++ ".") .INTERNAL_ERROR) := by
  simp [SparkDataset.materialized] at hmem
  simp [SparkDataset.to_pyfunc, ht, hmem]

/-- C2: `to_pyfunc` on the materialized table: with targets set and the
target column absent it fails with an internal error; with targets set and
the column present it returns inputs = all columns but the target and
outputs = the target column, both with the materialized table's row count;
with targets unset it returns the full materialized table and no outputs. -/
theorem C2_to_pyfunc_split (d : SparkDataset) :
    (∀ t, d.targets = some t → t ∉ d.materialized.columns →
      d.to_pyfunc = .error (.mlflowError
        ("Failed to convert Spark dataset to pyfunc inputs and outputs because"
          ++ " the pandas representation of the Spark dataset does not contain the"
          ++ " specified targets column " ++ t ++ ".") .INTERNAL_ERROR))
    ∧ (∀ t, d.targets = some t → t ∈ d.materialized.columns →
      d.to_pyfunc = .ok ⟨d.materialized.dropColumn t, some (d.materialized.getColumn t)⟩
      ∧ (d.materialized.dropColumn t).columns = d.materialized.columns.filter (fun c => c ≠ t)
      ∧ (d.materialized.dropColumn t).nrows = d.materialized.nrows
      ∧ (d.materialized.getColumn t).length = d.materialized.nrows)
    ∧ (d.targets = none → d.to_pyfunc = .ok ⟨d.materialized, none⟩) := by
  refine ⟨fun t ht hmem => to_pyfunc_targets_absent d t ht hmem,
    fun t ht hmem => ⟨to_pyfunc_targets_present d t ht hmem, rfl, ?_, ?_⟩,
    fun ht => to_pyfunc_targets_none d ht⟩
  · simp [PandasDF.dropColumn, PandasDF.nrows]
  · simp [PandasDF.getColumn, PandasDF.nrows]

/-- Witness for C2 at a concrete dataset whose target column is present. -/
theorem C2_to_pyfunc_split_witness :
    dsXY.targets = some "y" ∧ "y" ∈ dsXY.materialized.columns ∧
      (dsXY.to_pyfunc = .ok ⟨dsXY.materialized.dropColumn "y",
          some (dsXY.materialized.getColumn "y")⟩
        ∧ (dsXY.materialized.dropColumn "y").columns =
            dsXY.materialized.columns.filter (fun c => c ≠ "y")
        ∧ (dsXY.materialized.dropColumn "y").nrows = dsXY.materialized.nrows
        ∧ (dsXY.materialized.getColumn "y").length = dsXY.materialized.nrows) :=
  ⟨rfl, by decide, (C2_to_pyfunc_split dsXY).2.1 "y" rfl (by decide)⟩

/-- C3: `to_pyfunc` materializes exactly `min(n, 10000)` rows, a
deterministic prefix of the dataframe's row ordering, and a 15,000-row table
yields exactly 10,000 rows in the result. -/
theorem C3_row_cap :
    (∀ d : SparkDataset,
      d.materialized.rows = d.df.rows.take 10000
      ∧ d.materialized.nrows = min d.df.rows.length 10000
      ∧ (∀ r, d.to_pyfunc = .ok r → r.inputs.nrows = min d.df.rows.length 10000))
    ∧ bigDataset.to_pyfunc = .ok bigResult
    ∧ bigResult.inputs.nrows = 10000
    ∧ bigDataset.df.rows.length = 15000 := by
  have hmat : ∀ d : SparkDataset, d.materialized.nrows = min d.df.rows.length 10000 := by
    intro d
    simp [SparkDataset.materialized, PandasDF.nrows, SparkDF.limit, SparkDF.toPandas,
      List.length_take, Nat.min_comm]
  refine ⟨fun d => ⟨rfl, hmat d, fun r hr => ?_⟩, ?_, ?_, ?_⟩
  · rcases ht : d.targets with _ | t
    · rw [to_pyfunc_targets_none d ht] at hr
      cases hr
      simpa using hmat d
    · by_cases hmem : t ∈ d.materialized.columns
      · rw [to_pyfunc_targets_present d t ht hmem] at hr
        cases hr
        simp only [PandasDF.nrows, PandasDF.dropColumn, List.length_map]
        simpa [PandasDF.nrows] using hmat d
      · rw [to_pyfunc_targets_absent d t ht hmem] at hr
        cases hr
  · show bigDataset.to_pyfunc = .ok bigResult
    rw [to_pyfunc_targets_none bigDataset rfl]
    show Except.ok
        ⟨⟨["x"], (List.replicate 15000 ["0"]).take 10000⟩, none⟩ = Except.ok bigResult
    rw [List.take_replicate]
    norm_num [bigResult]
  · show (List.replicate 10000 (["0"] : List String)).length = 10000
    exact List.length_replicate 10000 ["0"]
  · show (List.replicate 15000 (["0"] : List String)).length = 15000
    exact List.length_replicate 15000 ["0"]

/-- Witness for C3 at the concrete 15,000-row dataset. -/
theorem C3_row_cap_witness :
    bigDataset.to_pyfunc = .ok bigResult
      ∧ bigResult.inputs.nrows = min bigDataset.df.rows.length 10000 :=
  ⟨C3_row_cap.2.1, (C3_row_cap.1 bigDataset).2.2 bigResult C3_row_cap.2.1⟩

/-- C4 (code bug evidence): when schema inference raises, the except handler
does not log a warning and return null; its call to `_logger._warning` (a
misspelling of `warning`) raises `AttributeError`, which propagates to the
caller.  Evaluated at a concrete failing inference oracle. -/
theorem C4_schema_failure_propagates :
    schemaCompute failingInfer dfXY =
      .error (.attributeError "Logger object has no attribute _warning") := rfl

/-- C5: the schema property is memoized after a completed first computation:
from the resulting memo cell, every later access returns the identical value
with zero invocations of the inference utility, even with a different
dataframe or inference oracle. -/
theorem C5_schema_memoized
    (infer infer₂ : SparkDF → Except PyError Schema) (df df₂ : SparkDF)
    (st st' : Option (Option Schema)) (v : Option Schema) (n : Nat)
    (h : schemaAccess infer df st = (.ok v, st', n)) :
    schemaAccess infer₂ df₂ st' = (.ok v, st', 0) := by
  rcases st with _ | w
  · rcases hc : schemaCompute infer df with e | w
    · simp [schemaAccess, hc] at h
    · simp [schemaAccess, hc] at h
      rcases h with ⟨rfl, rfl, -⟩
      simp [schemaAccess]
  · simp [schemaAccess] at h
    rcases h with ⟨rfl, rfl, -⟩
    simp [schemaAccess]

/-- Witness for C5: a first access computes and caches the schema; the second
access returns it without re-invoking inference. -/
theorem C5_schema_memoized_witness :
    schemaAccess okInfer dfXY none = (.ok (some schemaC), some (some schemaC), 1)
      ∧ schemaAccess failingInfer dfXY (some (some schemaC)) =
          (.ok (some schemaC), some (some schemaC), 0) :=
  ⟨rfl, C5_schema_memoized okInfer failingInfer dfXY dfXY none
    (some (some schemaC)) (some schemaC) 1 rfl⟩

/-- C8 (code bug evidence): `_to_dict` succeeds and emits the JSON schema and
profile fields when the schema value is present, but when the schema value is
`None` the unconditional `self.schema.to_dict()` raises `AttributeError`
instead of serializing with the schema field omitted, contradicting the
method's own docstring ("schema (optional)"). -/
theorem C8_to_dict_requires_schema :
    SparkDataset.to_dict base4 (some schemaC) 5 =
      .ok [("name", "n"), ("digest", "d"), ("source", "s"), ("source_type", "spark"),
        ("schema", jsonSchemaField schemaC), ("profile", jsonProfileField 5)]
    ∧ SparkDataset.to_dict base4 none 5 =
        .error (.attributeError "NoneType object has no attribute to_dict") := by
  constructor
  · rfl
  · rfl

/-- The Delta table version that `load_delta` ends up storing in its source:
the caller's version if given, otherwise the environment's latest-version
lookup for the given path or table name. -/
def resolvedDeltaVersion (env : DeltaEnv) (path table_name version : Option String) :
    Option String :=
  if version = none then
    match path, table_name with
    | some p, _ => env.latest_version_from_path p
    | none, some t => env.latest_version_from_table_name t
    | none, none => none
  else version

/-- Helper: the constructor raises `InvalidParameter` exactly when a targets
column is requested that the dataframe lacks. -/
lemma init_error_iff (df : SparkDF) (source : DatasetSource)
    (targets name digest : Option String) :
    (∃ msg, SparkDataset.init df source targets name digest =
        .error (.mlflowError msg .INVALID_PARAMETER_VALUE)) ↔
      ∃ t, targets = some t ∧ t ∉ df.columns := by
  rcases targets with _ | t
  · simp [SparkDataset.init]
  · by_cases h : t ∈ df.columns <;> simp [SparkDataset.init, h]

/-- Helper: the constructor succeeds when any requested targets column is
present. -/
lemma init_ok (df : SparkDF) (source : DatasetSource)
    (targets name digest : Option String)
    (h : ∀ t, targets = some t → t ∈ df.columns) :
    SparkDataset.init df source targets name digest =
      .ok ⟨df, source, targets, name, digest⟩ := by
  rcases targets with _ | t
  · simp [SparkDataset.init]
  · simp [SparkDataset.init, h t rfl]

/-- Helper: the constructor raises the targets `InvalidParameter` error when
the requested targets column is absent. -/
lemma init_error_of (df : SparkDF) (source : DatasetSource) (t : String)
    (name digest : Option String) (h : t ∉ df.columns) :
    SparkDataset.init df source (some t) name digest =
      .error (.mlflowError
        ("The specified Spark dataset does not contain the specified targets column "
          ++ t ++ ".") .INVALID_PARAMETER_VALUE) := by
  simp [SparkDataset.init, h]

/-- Helper: `from_spark` with a bad specifier count fails immediately. -/
lemma from_spark_count_ne (env : DeltaEnv) (df : SparkDF)
    (path table_name version sql targets name digest : Option String)
    (h : countNone3 path table_name sql ≠ 2) :
    from_spark env df path table_name version sql targets name digest =
      (.error (.mlflowError "Must specify exactly one of `path`, `table_name`, or `sql`."
        .INVALID_PARAMETER_VALUE), []) := by
  unfold from_spark
  rw [if_pos h]

/-- Helper: `from_spark` with only `sql` and no version constructs a SQL
source. -/
lemma from_spark_sql_vnone (env : DeltaEnv) (df : SparkDF)
    (q : String) (targets name digest : Option String) :
    from_spark env df none none none (some q) targets name digest =
      (SparkDataset.init df (.spark none none (some q)) targets name digest, []) := by
  simp [from_spark, countNone3, countNone2]

/-- Helper: `from_spark` with both `sql` and a version fails immediately. -/
lemma from_spark_sql_vsome (env : DeltaEnv) (df : SparkDF)
    (q v : String) (targets name digest : Option String) :
    from_spark env df none none (some v) (some q) targets name digest =
      (.error (.mlflowError
        ("`version` may not be specified when `sql` is specified. `version` may only be"
          ++ " specified when `table_name` or `path` is specified.")
        .INVALID_PARAMETER_VALUE), []) := by
  simp [from_spark, countNone3, countNone2]

/-- Helper: `from_spark` on a Delta-table path with a truthy version keeps
the caller's version and consults no lookup. -/
lemma from_spark_path_delta_truthy (env : DeltaEnv) (df : SparkDF) (p : String)
    (version targets name digest : Option String)
    (hd : env.is_delta_table_path p = true) (hv : pyTruthy version = true) :
    from_spark env df (some p) none version none targets name digest =
      (SparkDataset.init df (.delta (some p) none version) targets name digest,
        [.isDeltaTablePath p]) := by
  simp [from_spark, countNone3, countNone2, hd, hv]

/-- Helper: `from_spark` on a Delta-table path with a falsy version resolves
the version through the latest-version lookup. -/
lemma from_spark_path_delta_falsy (env : DeltaEnv) (df : SparkDF) (p : String)
    (version targets name digest : Option String)
    (hd : env.is_delta_table_path p = true) (hv : pyTruthy version = false) :
    from_spark env df (some p) none version none targets name digest =
      (SparkDataset.init df (.delta (some p) none (env.latest_version_from_path p))
          targets name digest,
        [.isDeltaTablePath p, .latestVersionFromPath p]) := by
  simp [from_spark, countNone3, countNone2, hd, hv]

/-- Helper: `from_spark` on a non-Delta path without a version constructs a
generic path source. -/
lemma from_spark_path_nondelta_vnone (env : DeltaEnv) (df : SparkDF) (p : String)
    (targets name digest : Option String)
    (hd : env.is_delta_table_path p = false) :
    from_spark env df (some p) none none none targets name digest =
      (SparkDataset.init df (.spark (some p) none none) targets name digest,
        [.isDeltaTablePath p]) := by
  simp [from_spark, countNone3, countNone2, hd]

/-- Helper: `from_spark` on a non-Delta path with a version fails, but only
after the Delta-format check. -/
lemma from_spark_path_nondelta_vsome (env : DeltaEnv) (df : SparkDF) (p v : String)
    (targets name digest : Option String)
    (hd : env.is_delta_table_path p = false) :
    from_spark env df (some p) none (some v) none targets name digest =
      (.error (.mlflowError
        ("Version " ++ v ++ " was specified, but the path " ++ p
          ++ " does not refer to a Delta table.") .INVALID_PARAMETER_VALUE),
        [.isDeltaTablePath p]) := by
  simp [from_spark, countNone3, countNone2, hd]

/-- Helper: `from_spark` on a Delta table name with a truthy version keeps
the caller's version and consults no lookup. -/
lemma from_spark_table_delta_truthy (env : DeltaEnv) (df : SparkDF) (t : String)
    (version targets name digest : Option String)
    (hd : env.is_delta_table t = true) (hv : pyTruthy version = true) :
    from_spark env df none (some t) version none targets name digest =
      (SparkDataset.init df (.delta none (some t) version) targets name digest,
        [.isDeltaTable t]) := by
  simp [from_spark, countNone3, countNone2, hd, hv]

/-- Helper: `from_spark` on a Delta table name with a falsy version resolves
the version through the latest-version lookup. -/
lemma from_spark_table_delta_falsy (env : DeltaEnv) (df : SparkDF) (t : String)
    (version targets name digest : Option String)
    (hd : env.is_delta_table t = true) (hv : pyTruthy version = false) :
    from_spark env df none (some t) version none targets name digest =
      (SparkDataset.init df (.delta none (some t) (env.latest_version_from_table_name t))
          targets name digest,
        [.isDeltaTable t, .latestVersionFromTableName t]) := by
  simp [from_spark, countNone3, countNone2, hd, hv]

/-- Helper: `from_spark` on a non-Delta table name without a version
constructs a generic table source. -/
lemma from_spark_table_nondelta_vnone (env : DeltaEnv) (df : SparkDF) (t : String)
    (targets name digest : Option String)
    (hd : env.is_delta_table t = false) :
    from_spark env df none (some t) none none targets name digest =
      (SparkDataset.init df (.spark none (some t) none) targets name digest,
        [.isDeltaTable t]) := by
  simp [from_spark, countNone3, countNone2, hd]

/-- Helper: `from_spark` on a non-Delta table name with a version fails, but
only after the Delta-format check. -/
lemma from_spark_table_nondelta_vsome (env : DeltaEnv) (df : SparkDF) (t v : String)
    (targets name digest : Option String)
    (hd : env.is_delta_table t = false) :
    from_spark env df none (some t) (some v) none targets name digest =
      (.error (.mlflowError
        ("Version " ++ v ++ " was specified, but could not find a"
          ++ " Delta table with name " ++ t ++ ".") .INVALID_PARAMETER_VALUE),
        [.isDeltaTable t]) := by
  simp [from_spark, countNone3, countNone2, hd]

/-- Helper: `load_delta` with a bad specifier count fails immediately. -/
lemma load_delta_count_ne (env : DeltaEnv)
    (path table_name version targets name digest : Option String)
    (h : countNone2 path table_name ≠ 1) :
    load_delta env path table_name version targets name digest =
      (.error (.mlflowError "Must specify exactly one of `table_name` or `path`."
        .INVALID_PARAMETER_VALUE), []) := by
  unfold load_delta
  rw [if_pos h]

/-- Helper: `load_delta` by path without a version resolves the latest
version for the path, then loads. -/
lemma load_delta_path_vnone (env : DeltaEnv) (p : String)
    (targets name digest : Option String) :
    load_delta env (some p) none none targets name digest =
      (SparkDataset.init
          (env.load (.delta (some p) none (env.latest_version_from_path p)))
          (.delta (some p) none (env.latest_version_from_path p)) targets name digest,
        [.latestVersionFromPath p,
          .loadSource (.delta (some p) none (env.latest_version_from_path p))]) := by
  simp [load_delta, countNone2]

/-- Helper: `load_delta` by path with a version loads directly. -/
lemma load_delta_path_vsome (env : DeltaEnv) (p v : String)
    (targets name digest : Option String) :
    load_delta env (some p) none (some v) targets name digest =
      (SparkDataset.init (env.load (.delta (some p) none (some v)))
          (.delta (some p) none (some v)) targets name digest,
        [.loadSource (.delta (some p) none (some v))]) := by
  simp [load_delta, countNone2]

/-- Helper: `load_delta` by table name without a version resolves the latest
version for the table, derives a default name, then loads. -/
lemma load_delta_table_vnone (env : DeltaEnv) (t : String)
    (targets name digest : Option String) :
    load_delta env none (some t) none targets name digest =
      (SparkDataset.init
          (env.load (.delta none (some t) (env.latest_version_from_table_name t)))
          (.delta none (some t) (env.latest_version_from_table_name t)) targets
          (if name = none
            then some (t ++ versionSuffix (env.latest_version_from_table_name t))
            else name)
          digest,
        [.latestVersionFromTableName t,
          .loadSource (.delta none (some t) (env.latest_version_from_table_name t))]) := by
  by_cases hn : name = none <;> simp [load_delta, countNone2, hn]

/-- Helper: `load_delta` by table name with a version derives a default name
from the caller's version, then loads. -/
lemma load_delta_table_vsome (env : DeltaEnv) (t v : String)
    (targets name digest : Option String) :
    load_delta env none (some t) (some v) targets name digest =
      (SparkDataset.init (env.load (.delta none (some t) (some v)))
          (.delta none (some t) (some v)) targets
          (if name = none then some (t ++ versionSuffix (some v)) else name) digest,
        [.loadSource (.delta none (some t) (some v))]) := by
  by_cases hn : name = none <;> simp [load_delta, countNone2, versionSuffix, hn]

/-- C6 (amended): `from_spark` raises `InvalidParameter` exactly when the
specifier count is wrong, a version accompanies `sql`, a version accompanies
a non-Delta path or table name, or the targets column is absent from the
dataframe; in every other configuration it constructs and returns a
dataset. -/
theorem C6_from_spark_invalid_parameter
    (env : DeltaEnv) (df : SparkDF)
    (path table_name version sql targets name digest : Option String) :
    ((∃ msg, (from_spark env df path table_name version sql targets name digest).1 =
        .error (.mlflowError msg .INVALID_PARAMETER_VALUE)) ↔
      (countNone3 path table_name sql ≠ 2
        ∨ (sql ≠ none ∧ version ≠ none)
        ∨ (∃ p, path = some p ∧ version ≠ none ∧ env.is_delta_table_path p = false)
        ∨ (∃ t, table_name = some t ∧ version ≠ none ∧ env.is_delta_table t = false)
        ∨ (∃ t, targets = some t ∧ t ∉ df.columns)))
    ∧ ((countNone3 path table_name sql = 2
        ∧ ¬(sql ≠ none ∧ version ≠ none)
        ∧ ¬(∃ p, path = some p ∧ version ≠ none ∧ env.is_delta_table_path p = false)
        ∧ ¬(∃ t, table_name = some t ∧ version ≠ none ∧ env.is_delta_table t = false)
        ∧ ¬(∃ t, targets = some t ∧ t ∉ df.columns)) →
      ∃ ds, (from_spark env df path table_name version sql targets name digest).1 =
        .ok ds) := by
  constructor
  · by_cases h2 : countNone3 path table_name sql = 2
    · rcases path with _ | p
      · rcases table_name with _ | tn
        · rcases sql with _ | q
          · simp [countNone3] at h2
          · rcases version with _ | v
            · rw [from_spark_sql_vnone]
              simp [init_error_iff, countNone3]
            · rw [from_spark_sql_vsome]
              simp [countNone3]
        · rcases sql with _ | q
          · cases hd : env.is_delta_table tn
            · rcases version with _ | v
              · rw [from_spark_table_nondelta_vnone env df tn targets name digest hd]
                simp [init_error_iff, countNone3, hd]
              · rw [from_spark_table_nondelta_vsome env df tn v targets name digest hd]
                simp [countNone3, hd]
            · rcases version with _ | v
              · rw [from_spark_table_delta_falsy env df tn none targets name digest hd rfl]
                simp [init_error_iff, countNone3, hd]
              · cases hv : pyTruthy (some v)
                · rw [from_spark_table_delta_falsy env df tn (some v) targets name digest hd hv]
                  simp [init_error_iff, countNone3, hd]
                · rw [from_spark_table_delta_truthy env df tn (some v) targets name digest hd hv]
                  simp [init_error_iff, countNone3, hd]
          · simp [countNone3] at h2
      · rcases table_name with _ | tn
        · rcases sql with _ | q
          · cases hd : env.is_delta_table_path p
            · rcases version with _ | v
              · rw [from_spark_path_nondelta_vnone env df p targets name digest hd]
                simp [init_error_iff, countNone3, hd]
              · rw [from_spark_path_nondelta_vsome env df p v targets name digest hd]
                simp [countNone3, hd]
            · rcases version with _ | v
              · rw [from_spark_path_delta_falsy env df p none targets name digest hd rfl]
                simp [init_error_iff, countNone3, hd]
              · cases hv : pyTruthy (some v)
                · rw [from_spark_path_delta_falsy env df p (some v) targets name digest hd hv]
                  simp [init_error_iff, countNone3, hd]
                · rw [from_spark_path_delta_truthy env df p (some v) targets name digest hd hv]
                  simp [init_error_iff, countNone3, hd]
          · simp [countNone3] at h2
        · rcases sql with _ | q
          · simp [countNone3] at h2
          · simp [countNone3] at h2
    · rw [from_spark_count_ne env df path table_name version sql targets name digest h2]
      simp [h2]
  · rintro ⟨h2, hb, hcp, hct, htg⟩
    have htargets : ∀ t, targets = some t → t ∈ df.columns := by
      intro t ht
      by_contra hmem
      exact htg ⟨t, ht, hmem⟩
    rcases path with _ | p
    · rcases table_name with _ | tn
      · rcases sql with _ | q
        · simp [countNone3] at h2
        · rcases version with _ | v
          · refine ⟨⟨df, .spark none none (some q), targets, name, digest⟩, ?_⟩
            rw [from_spark_sql_vnone]
            exact init_ok df (.spark none none (some q)) targets name digest htargets
          · exact absurd ⟨by simp, by simp⟩ hb
      · rcases sql with _ | q
        · cases hd : env.is_delta_table tn
          · rcases version with _ | v
            · refine ⟨⟨df, .spark none (some tn) none, targets, name, digest⟩, ?_⟩
              rw [from_spark_table_nondelta_vnone env df tn targets name digest hd]
              exact init_ok df (.spark none (some tn) none) targets name digest htargets
            · exact absurd ⟨tn, rfl, by simp, hd⟩ hct
          · rcases version with _ | v
            · refine ⟨⟨df, .delta none (some tn) (env.latest_version_from_table_name tn),
                targets, name, digest⟩, ?_⟩
              rw [from_spark_table_delta_falsy env df tn none targets name digest hd rfl]
              exact init_ok df
                (.delta none (some tn) (env.latest_version_from_table_name tn))
                targets name digest htargets
            · cases hv : pyTruthy (some v)
              · refine ⟨⟨df, .delta none (some tn) (env.latest_version_from_table_name tn),
                  targets, name, digest⟩, ?_⟩
                rw [from_spark_table_delta_falsy env df tn (some v) targets name digest hd hv]
                exact init_ok df
                  (.delta none (some tn) (env.latest_version_from_table_name tn))
                  targets name digest htargets
              · refine ⟨⟨df, .delta none (some tn) (some v), targets, name, digest⟩, ?_⟩
                rw [from_spark_table_delta_truthy env df tn (some v) targets name digest hd hv]
                exact init_ok df (.delta none (some tn) (some v)) targets name digest htargets
        · simp [countNone3] at h2
    · rcases table_name with _ | tn
      · rcases sql with _ | q
        · cases hd : env.is_delta_table_path p
          · rcases version with _ | v
            · refine ⟨⟨df, .spark (some p) none none, targets, name, digest⟩, ?_⟩
              rw [from_spark_path_nondelta_vnone env df p targets name digest hd]
              exact init_ok df (.spark (some p) none none) targets name digest htargets
            · exact absurd ⟨p, rfl, by simp, hd⟩ hcp
          · rcases version with _ | v
            · refine ⟨⟨df, .delta (some p) none (env.latest_version_from_path p),
                targets, name, digest⟩, ?_⟩
              rw [from_spark_path_delta_falsy env df p none targets name digest hd rfl]
              exact init_ok df
                (.delta (some p) none (env.latest_version_from_path p))
                targets name digest htargets
            · cases hv : pyTruthy (some v)
              · refine ⟨⟨df, .delta (some p) none (env.latest_version_from_path p),
                  targets, name, digest⟩, ?_⟩
                rw [from_spark_path_delta_falsy env df p (some v) targets name digest hd hv]
                exact init_ok df
                  (.delta (some p) none (env.latest_version_from_path p))
                  targets name digest htargets
              · refine ⟨⟨df, .delta (some p) none (some v), targets, name, digest⟩, ?_⟩
                rw [from_spark_path_delta_truthy env df p (some v) targets name digest hd hv]
                exact init_ok df (.delta (some p) none (some v)) targets name digest htargets
        · simp [countNone3] at h2
      · rcases sql with _ | q
        · simp [countNone3] at h2
        · simp [countNone3] at h2

/-- Witness for C6: a version given for a non-Delta path is one of the
`InvalidParameter` configurations, and the call indeed fails with
`InvalidParameter`. -/
theorem C6_from_spark_invalid_parameter_witness :
    (countNone3 (some "p") none none ≠ 2
      ∨ ((none : Option String) ≠ none ∧ (some "3" : Option String) ≠ none)
      ∨ (∃ p, (some "p" : Option String) = some p ∧ (some "3" : Option String) ≠ none
          ∧ envNoDelta.is_delta_table_path p = false)
      ∨ (∃ t, (none : Option String) = some t ∧ (some "3" : Option String) ≠ none
          ∧ envNoDelta.is_delta_table t = false)
      ∨ (∃ t, (none : Option String) = some t ∧ t ∉ dfXY.columns))
    ∧ (∃ msg, (from_spark envNoDelta dfXY (some "p") none (some "3") none none none none).1 =
        .error (.mlflowError msg .INVALID_PARAMETER_VALUE)) := by
  have hc : countNone3 (some "p") none none ≠ 2
      ∨ ((none : Option String) ≠ none ∧ (some "3" : Option String) ≠ none)
      ∨ (∃ p, (some "p" : Option String) = some p ∧ (some "3" : Option String) ≠ none
          ∧ envNoDelta.is_delta_table_path p = false)
      ∨ (∃ t, (none : Option String) = some t ∧ (some "3" : Option String) ≠ none
          ∧ envNoDelta.is_delta_table t = false)
      ∨ (∃ t, (none : Option String) = some t ∧ t ∉ dfXY.columns) :=
    Or.inr (Or.inr (Or.inl ⟨"p", rfl, by decide, rfl⟩))
  exact ⟨hc,
    (C6_from_spark_invalid_parameter envNoDelta dfXY (some "p") none (some "3")
      none none none none).1.mpr hc⟩

/-- Counterexample to C6 as stated: with exactly one specifier (`sql`), no
version, and a targets column absent from the dataframe — a configuration in
none of the claim's three failure classes — `from_spark` still raises
`InvalidParameter` (from the constructor's targets check) instead of
returning a dataset. -/
theorem C6_from_spark_counterexample :
    (from_spark envNoDelta dfXY none none none (some "q") (some "z") none none).1 =
      .error (.mlflowError
        "The specified Spark dataset does not contain the specified targets column z."
        .INVALID_PARAMETER_VALUE)
    ∧ countNone3 none none (some "q") = 2 := by
  constructor
  · rfl
  · rfl

/-- C7 (amended): `load_delta` raises `InvalidParameter` exactly when the
path/table specifier count is wrong or the targets column is absent from the
loaded dataframe; with exactly one specifier it resolves an unspecified
version to the environment's latest, derives a default name from the table
name plus the version when the name is omitted, and builds the dataset from
the loaded dataframe. -/
theorem C7_load_delta_behaviour (env : DeltaEnv)
    (path table_name version targets name digest : Option String) :
    ((∃ msg, (load_delta env path table_name version targets name digest).1 =
        .error (.mlflowError msg .INVALID_PARAMETER_VALUE)) ↔
      (countNone2 path table_name ≠ 1
        ∨ ∃ t, targets = some t ∧
            t ∉ (env.load (.delta path table_name
                  (resolvedDeltaVersion env path table_name version))).columns))
    ∧ (∀ p, path = some p → table_name = none →
        load_delta env path table_name version targets name digest =
          (SparkDataset.init
            (env.load (.delta (some p) none
              (resolvedDeltaVersion env path table_name version)))
            (.delta (some p) none (resolvedDeltaVersion env path table_name version))
            targets name digest,
          (if version = none then [EnvCall.latestVersionFromPath p] else [])
            ++ [.loadSource (.delta (some p) none
                  (resolvedDeltaVersion env path table_name version))]))
    ∧ (∀ t, table_name = some t → path = none →
        load_delta env path table_name version targets name digest =
          (SparkDataset.init
            (env.load (.delta none (some t)
              (resolvedDeltaVersion env path table_name version)))
            (.delta none (some t) (resolvedDeltaVersion env path table_name version))
            targets
            (if name = none
              then some (t ++ versionSuffix
                (resolvedDeltaVersion env path table_name version))
              else name)
            digest,
          (if version = none then [EnvCall.latestVersionFromTableName t] else [])
            ++ [.loadSource (.delta none (some t)
                  (resolvedDeltaVersion env path table_name version))])) := by
  refine ⟨?_, ?_, ?_⟩
  · by_cases h1 : countNone2 path table_name = 1
    · rcases path with _ | p
      · rcases table_name with _ | t
        · simp [countNone2] at h1
        · rcases version with _ | v
          · rw [load_delta_table_vnone]
            simp [init_error_iff, countNone2, resolvedDeltaVersion]
          · rw [load_delta_table_vsome]
            simp [init_error_iff, countNone2, resolvedDeltaVersion]
      · rcases table_name with _ | t
        · rcases version with _ | v
          · rw [load_delta_path_vnone]
            simp [init_error_iff, countNone2, resolvedDeltaVersion]
          · rw [load_delta_path_vsome]
            simp [init_error_iff, countNone2, resolvedDeltaVersion]
        · simp [countNone2] at h1
    · rw [load_delta_count_ne env path table_name version targets name digest h1]
      simp [h1]
  · rintro p rfl rfl
    rcases version with _ | v
    · rw [load_delta_path_vnone]
      simp [resolvedDeltaVersion]
    · rw [load_delta_path_vsome]
      simp [resolvedDeltaVersion]
  · rintro t rfl rfl
    rcases version with _ | v
    · rw [load_delta_table_vnone]
      simp [resolvedDeltaVersion]
    · rw [load_delta_table_vsome]
      simp [resolvedDeltaVersion]

/-- Witness for C7: loading by table name in a concrete environment resolves
the latest version `7`, derives the default name `tblv7`, and returns the
dataset. -/
theorem C7_load_delta_behaviour_witness :
    load_delta envDelta none (some "tbl") none none none none =
      (SparkDataset.init
        (envDelta.load (.delta none (some "tbl")
          (resolvedDeltaVersion envDelta none (some "tbl") none)))
        (.delta none (some "tbl") (resolvedDeltaVersion envDelta none (some "tbl") none))
        none
        (if (none : Option String) = none
          then some ("tbl" ++ versionSuffix
            (resolvedDeltaVersion envDelta none (some "tbl") none))
          else none)
        none,
      (if (none : Option String) = none then [EnvCall.latestVersionFromTableName "tbl"] else [])
        ++ [.loadSource (.delta none (some "tbl")
              (resolvedDeltaVersion envDelta none (some "tbl") none))])
    ∧ load_delta envDelta none (some "tbl") none none none none =
      (.ok ⟨dfXY, .delta none (some "tbl") (some "7"), none, some "tblv7", none⟩,
        [.latestVersionFromTableName "tbl",
          .loadSource (.delta none (some "tbl") (some "7"))]) :=
  ⟨(C7_load_delta_behaviour envDelta none (some "tbl") none none none none).2.2
      "tbl" rfl rfl,
    rfl⟩

/-- Counterexample to C7 as stated: with exactly one specifier (a path) but a
targets column absent from the loaded dataframe, `load_delta` raises
`InvalidParameter`, so the claimed "if and only if neither or both are given"
fails. -/
theorem C7_load_delta_counterexample :
    (load_delta envDelta (some "p") none none (some "z") none none).1 =
      .error (.mlflowError
        "The specified Spark dataset does not contain the specified targets column z."
        .INVALID_PARAMETER_VALUE)
    ∧ countNone2 (some "p") none = 1 := by
  constructor
  · rfl
  · rfl

/-- C9 (amended): the `InvalidParameter` errors for specifier-count
violations and for a version given with `sql` are raised before any
environment call (empty trace); the error for a version given with a
non-Delta path or table name is raised only after one Delta-format detection
call (and no load or version lookup); and the targets error in `load_delta`
is raised only once the dataframe is available — its environment-call trace
ends with the `loadSource` call that produced the dataframe. -/
theorem C9_eager_validation (env : DeltaEnv) (df : SparkDF)
    (path table_name version sql targets name digest : Option String) :
    (countNone3 path table_name sql ≠ 2 →
      from_spark env df path table_name version sql targets name digest =
        (.error (.mlflowError "Must specify exactly one of `path`, `table_name`, or `sql`."
          .INVALID_PARAMETER_VALUE), []))
    ∧ (∀ q v, sql = some q → version = some v →
        countNone3 path table_name sql = 2 →
        from_spark env df path table_name version sql targets name digest =
          (.error (.mlflowError
            ("`version` may not be specified when `sql` is specified. `version` may only be"
              ++ " specified when `table_name` or `path` is specified.")
            .INVALID_PARAMETER_VALUE), []))
    ∧ (∀ p v, path = some p → table_name = none → sql = none → version = some v →
        env.is_delta_table_path p = false →
        from_spark env df path table_name version sql targets name digest =
          (.error (.mlflowError
            ("Version " ++ v ++ " was specified, but the path " ++ p
              ++ " does not refer to a Delta table.") .INVALID_PARAMETER_VALUE),
            [.isDeltaTablePath p]))
    ∧ (∀ t v, table_name = some t → path = none → sql = none → version = some v →
        env.is_delta_table t = false →
        from_spark env df path table_name version sql targets name digest =
          (.error (.mlflowError
            ("Version " ++ v ++ " was specified, but could not find a"
              ++ " Delta table with name " ++ t ++ ".") .INVALID_PARAMETER_VALUE),
            [.isDeltaTable t]))
    ∧ (countNone2 path table_name ≠ 1 →
        load_delta env path table_name version targets name digest =
          (.error (.mlflowError "Must specify exactly one of `table_name` or `path`."
            .INVALID_PARAMETER_VALUE), []))
    ∧ (∀ p t', path = some p → table_name = none → targets = some t' →
        t' ∉ (env.load (.delta (some p) none
            (resolvedDeltaVersion env (some p) none version))).columns →
        load_delta env path table_name version targets name digest =
          (.error (.mlflowError
            ("The specified Spark dataset does not contain the specified targets column "
              ++ t' ++ ".") .INVALID_PARAMETER_VALUE),
            (if version = none then [EnvCall.latestVersionFromPath p] else [])
              ++ [.loadSource (.delta (some p) none
                    (resolvedDeltaVersion env (some p) none version))]))
    ∧ (∀ t t', table_name = some t → path = none → targets = some t' →
        t' ∉ (env.load (.delta none (some t)
            (resolvedDeltaVersion env none (some t) version))).columns →
        load_delta env path table_name version targets name digest =
          (.error (.mlflowError
            ("The specified Spark dataset does not contain the specified targets column "
              ++ t' ++ ".") .INVALID_PARAMETER_VALUE),
            (if version = none then [EnvCall.latestVersionFromTableName t] else [])
              ++ [.loadSource (.delta none (some t)
                    (resolvedDeltaVersion env none (some t) version))])) := by
  refine ⟨?_, ?_, ?_, ?_, ?_, ?_, ?_⟩
  · intro h
    exact from_spark_count_ne env df path table_name version sql targets name digest h
  · rintro q v rfl rfl h2
    rcases path with _ | p
    · rcases table_name with _ | tn
      · exact from_spark_sql_vsome env df q v targets name digest
      · simp [countNone3] at h2
    · rcases table_name with _ | tn <;> simp [countNone3] at h2
  · intro p v hp htn hq hv hd
    subst hp htn hq hv
    exact from_spark_path_nondelta_vsome env df p v targets name digest hd
  · intro t v ht hp hq hv hd
    subst ht hp hq hv
    exact from_spark_table_nondelta_vsome env df t v targets name digest hd
  · intro h
    exact load_delta_count_ne env path table_name version targets name digest h
  · rintro p t' rfl rfl rfl hmem
    rcases version with _ | v
    · rw [load_delta_path_vnone]
      simp [resolvedDeltaVersion] at hmem
      rw [init_error_of _ _ t' name digest hmem]
      simp [resolvedDeltaVersion]
    · rw [load_delta_path_vsome]
      simp [resolvedDeltaVersion] at hmem
      rw [init_error_of _ _ t' name digest hmem]
      simp [resolvedDeltaVersion]
  · rintro t t' rfl rfl rfl hmem
    rcases version with _ | v
    · rw [load_delta_table_vnone]
      simp [resolvedDeltaVersion] at hmem
      rw [init_error_of _ _ t' _ digest hmem]
      simp [resolvedDeltaVersion]
    · rw [load_delta_table_vsome]
      simp [resolvedDeltaVersion] at hmem
      rw [init_error_of _ _ t' _ digest hmem]
      simp [resolvedDeltaVersion]

/-- Witness for C9: a call with no specifier at all fails with
`InvalidParameter` and an empty environment-call trace. -/
theorem C9_eager_validation_witness :
    countNone3 none none none ≠ 2
    ∧ from_spark envNoDelta dfXY none none none none none none none =
        (.error (.mlflowError "Must specify exactly one of `path`, `table_name`, or `sql`."
          .INVALID_PARAMETER_VALUE), []) :=
  ⟨by decide,
    (C9_eager_validation envNoDelta dfXY none none none none none none none).1 (by decide)⟩

/-- Counterexample to C9 as stated: the `InvalidParameter` error for a
version given with a non-Delta path is raised only after the Delta-format
detection engine call — the recorded trace is nonempty. -/
theorem C9_eager_validation_counterexample :
    (from_spark envNoDelta dfXY (some "p") none (some "3") none none none none).1 =
      .error (.mlflowError
        "Version 3 was specified, but the path p does not refer to a Delta table."
        .INVALID_PARAMETER_VALUE)
    ∧ (from_spark envNoDelta dfXY (some "p") none (some "3") none none none none).2 =
        [EnvCall.isDeltaTablePath "p"] := by
  constructor
  · rfl
  · rfl

/-- C10 (amended): with a non-null, non-empty version and a path or table
name detected as Delta, `from_spark` builds a Delta source carrying exactly
the caller's version, and the latest-version lookup is not consulted. -/
theorem C10_version_passthrough (env : DeltaEnv) (df : SparkDF) (p t v : String)
    (targets name digest : Option String) (hv : v ≠ "") :
    (env.is_delta_table_path p = true →
      from_spark env df (some p) none (some v) none targets name digest =
        (SparkDataset.init df (.delta (some p) none (some v)) targets name digest,
          [.isDeltaTablePath p]))
    ∧ (env.is_delta_table t = true →
      from_spark env df none (some t) (some v) none targets name digest =
        (SparkDataset.init df (.delta none (some t) (some v)) targets name digest,
          [.isDeltaTable t])) := by
  have htv : pyTruthy (some v) = true := by simp [pyTruthy, hv]
  exact ⟨fun hd => from_spark_path_delta_truthy env df p (some v) targets name digest hd htv,
    fun hd => from_spark_table_delta_truthy env df t (some v) targets name digest hd htv⟩

/-- Witness for C10: a concrete Delta path with version `5` yields a source
carrying version `5` and a trace with only the format-detection call. -/
theorem C10_version_passthrough_witness :
    ("5" : String) ≠ "" ∧ envDelta.is_delta_table_path "p" = true
    ∧ from_spark envDelta dfXY (some "p") none (some "5") none none none none =
        (SparkDataset.init dfXY (.delta (some "p") none (some "5")) none none none,
          [.isDeltaTablePath "p"]) :=
  ⟨by decide, rfl,
    (C10_version_passthrough envDelta dfXY "p" "t" "5" none none none (by decide)).1 rfl⟩

/-- Counterexample to C10 as stated: the caller-supplied version `""` is
non-null, yet Python truthiness makes `version or lookup` consult the
latest-version lookup, and the returned source carries the looked-up version
`7`, not the supplied one. -/
theorem C10_version_passthrough_counterexample :
    from_spark envDelta dfXY (some "p") none (some "") none none none none =
      (.ok ⟨dfXY, .delta (some "p") none (some "7"), none, none, none⟩,
        [.isDeltaTablePath "p", .latestVersionFromPath "p"]) := rfl

end MlflowSpark
